import Mathlib

/-
Verification development for the Podcast-Energy-Experiment repository.

Shallow embedding of:
  * src/energy_profiler.py  — EnergyProfiler.start / stop / _parse_csv
  * src/run_experiment.py   — run_single_trial
  * src/browser_controller.py — the speed-setting normalization and protocol

Conventions used throughout:
  * Python floats are modelled as rationals (ℚ); every numeric value the
    claims exercise is exactly representable, and Python round's
    half-to-even rule is modelled explicitly.
  * A CSV cell (the string a csv.DictReader row holds for a column) is
    modelled by `Cell`: absent key, empty string, a numeric string (with
    its parsed value), or a non-numeric string on which float() raises.
  * Python dicts returned by the profiler are modelled by `PyDict`, a
    record of `Option`-valued fields where `none` means "key absent".
  * External effects (subprocess liveness, signal delivery, the output
    file's state, browser calls raising) enter as explicit parameters.
-/

/-- A CSV cell as seen through `row.get(col)` / `float(row[col])`:
`absent` = key missing (KeyError on `row[col]`, falsy via `.get`),
`empty` = empty string (falsy, float() raises ValueError),
`num q` = non-empty numeric string parsing to `q`,
`junk` = non-empty string on which float() raises ValueError. -/
inductive Cell where
  | absent : Cell
  | empty : Cell
  | num : ℚ → Cell
  | junk : Cell
deriving DecidableEq, Repr

/-- A CSV row from csv.DictReader: an association list column-name ↦ cell. -/
abbrev Row := List (String × Cell)

/-- `row.get(col)` with `absent` standing for a missing key. -/
def rowGet (r : Row) (c : String) : Cell :=
  (List.lookup c r).getD Cell.absent

/-- Python truthiness of the cell's string: non-empty strings are truthy. -/
def cellTruthy : Cell → Bool
  | Cell.num _ => true
  | Cell.junk => true
  | _ => false

/-- `float(cell)`: `some q` on a numeric string, `none` when float() raises
(ValueError on empty/junk strings, KeyError on a missing key). -/
def cellFloat : Cell → Option ℚ
  | Cell.num q => some q
  | _ => none

/-- A Python dict as returned by EnergyProfiler.stop / _parse_csv: each
field is `none` when the corresponding key is absent from the dict.
`total_energy_joules` and friends use a nested Option because the value
stored under the key can itself be Python None. -/
structure PyDict where
  dry_run : Option Bool
  error : Option String
  samples : Option Nat
  total_energy_joules : Option (Option ℚ)
  energy_column_used : Option (Option String)
  duration_seconds : Option (Option ℚ)
  mean_power_watts : Option (Option ℚ)
  raw_power_readings : Option (List ℚ)
deriving DecidableEq, Repr

/-- Python's round-half-to-even on an exact rational, to an integer. -/
def rhe (q : ℚ) : ℤ :=
  let f : ℤ := q.floor
  let r : ℚ := q - (f : ℚ)
  if r < 1 / 2 then f
  else if 1 / 2 < r then f + 1
  else if f % 2 = 0 then f else f + 1

/-- `round(q, 4)` on an exact rational. -/
def round4 (q : ℚ) : ℚ := (rhe (q * 10000) : ℚ) / 10000

/-- `round(q, 2)` on an exact rational. -/
def round2 (q : ℚ) : ℚ := (rhe (q * 100) : ℚ) / 100

/-- SAMPLE_INTERVAL_MS (default of env ENERGIBRIDGE_INTERVAL_MS = 500). -/
def sampleIntervalMs : ℚ := 500

namespace EnergyProfiler

/-- Explicit cumulative-energy (Joules) column candidates, in probe order. -/
def energyCandidates : List String :=
  ["PACKAGE_ENERGY (J)", "package_energy", "Package Energy (J)",
   "CPU Energy (J)", "energy", "total_energy"]

/-- Explicit instantaneous-power (Watts) column candidates, in probe order. -/
def powerCandidates : List String :=
  ["SYSTEM_POWER (Watts)", "SYSTEM_POWER", "CPU_POWER (Watts)",
   "CPU_POWER", "PACKAGE_POWER (Watts)"]

/-- `needle in hay` on Python strings (substring containment). -/
def containsSub (needle hay : String) : Bool :=
  hay.toList.tails.any (fun t => needle.toList.isPrefixOf t)

/-- Python `str.lower()`, character by character. -/
def lowerStr (s : String) : String :=
  String.mk (s.toList.map Char.toLower)

/-- The first candidate name present among the headers. -/
def firstPresent (cands headers : List String) : Option String :=
  cands.find? (fun c => headers.contains c)

/-- The fallback header scan: walk the headers in order; the first header
containing "energy" (case-insensitively) wins and stops the scan; each
header containing "power" overwrites the power choice and the scan goes
on. `p` is the power column accumulated so far. -/
def fallbackScan : Option String → List String → Option String × Option String
  | p, [] => (none, p)
  | p, h :: t =>
    if containsSub "energy" (lowerStr h) then (some h, p)
    else if containsSub "power" (lowerStr h) then fallbackScan (some h) t
    else fallbackScan p t

/-- Step 1 of _parse_csv: select the energy column, else the power column,
else run the fallback substring scan. -/
def selectCols (headers : List String) : Option String × Option String :=
  let e := firstPresent energyCandidates headers
  let p := match e with
    | some _ => none
    | none => firstPresent powerCandidates headers
  match e, p with
  | none, none => fallbackScan none headers
  | _, _ => (e, p)

/-- `[float(r[c]) for r in rows if r.get(c)]` under a try: `none` models the
whole comprehension raising (one non-numeric truthy cell suffices). -/
def strictFloats : List Row → String → Option (List ℚ)
  | [], _ => some []
  | r :: rest, c =>
    let cell := rowGet r c
    if cellTruthy cell then
      match cellFloat cell with
      | none => none
      | some q => (strictFloats rest c).map (fun l => q :: l)
    else strictFloats rest c

/-- Step 2 of _parse_csv: per-sample Δt list (seconds) and the duration.
"Delta" is cumulative milliseconds since start; "Time" is epoch
milliseconds; with neither (or on failure, or fewer than two stamps) fall
back to the uniform nominal interval. -/
def timesOf (headers : List String) (rows : List Row) : List ℚ × Option ℚ :=
  let parsed : List ℚ × Option ℚ :=
    if headers.contains "Delta" then
      match strictFloats rows "Delta" with
      | some l =>
        if 2 ≤ l.length then
          (List.zipWith (fun a b => (b - a) / 1000) l l.tail,
           some (l.getLast?.getD 0 / 1000))
        else ([], none)
      | none => ([], none)
    else if headers.contains "Time" then
      match strictFloats rows "Time" with
      | some l =>
        if 2 ≤ l.length then
          (List.zipWith (fun a b => (b - a) / 1000) l l.tail,
           some ((l.getLast?.getD 0 - l.head?.getD 0) / 1000))
        else ([], none)
      | none => ([], none)
    else ([], none)
  if parsed.1.isEmpty then
    let interval := sampleIntervalMs / 1000
    (List.replicate (rows.length - 1) interval, some (interval * rows.length))
  else parsed

/-- Pairwise-non-decreasing test:
`all(v <= values[i+1] for i, v in enumerate(values[:-1]))`. -/
def nonDecr : List ℚ → Bool
  | [] => true
  | [_] => true
  | a :: b :: t => decide (a ≤ b) && nonDecr (b :: t)

/-- The cumulative-vs-per-sample reduction of the selected energy column:
with at least two values all pairwise non-decreasing the column is treated
as cumulative (total = last − first); otherwise every row is a per-sample
quantity and the values are summed. -/
def computeTotalEnergy (values : List ℚ) : ℚ :=
  if 2 ≤ values.length ∧ nonDecr values = true then
    values.getLast?.getD 0 - values.head?.getD 0
  else values.sum

/-- The per-row float extraction of a selected column, skipping rows whose
cell is missing or fails to parse (`except (ValueError, KeyError): pass`). -/
def valuesOf (rows : List Row) (c : String) : List ℚ :=
  rows.filterMap (fun r => cellFloat (rowGet r c))

/-- The summary dict built at the end of _parse_csv. `step3` carries
(total energy, power readings, used column). -/
def mkSummary (n : Nat) (step3 : ℚ × List ℚ × Option String)
    (durationS : Option ℚ) : PyDict :=
  { dry_run := none
    error := none
    samples := some n
    total_energy_joules := some (some (round4 step3.1))
    energy_column_used := some step3.2.2
    duration_seconds := some (match durationS with
      | some d => if d = 0 then none else some (round2 d)
      | none => none)
    mean_power_watts := some (match durationS with
      | some d => if 0 < d then some (round4 (step3.1 / d)) else none
      | none => none)
    raw_power_readings := some (step3.2.1.take 5) }

/-- The dict `_parse_csv` returns when the file could not be read/parsed. -/
def errDict (msg : String) : PyDict :=
  { dry_run := none, error := some msg, samples := some 0,
    total_energy_joules := none, energy_column_used := none,
    duration_seconds := none, mean_power_watts := none,
    raw_power_readings := none }

/-- Step 3 of _parse_csv: reduce the selected column to
(total energy, power readings, used column); `dts` is the per-sample Δt
list from step 2. -/
def step3Of (headers : List String) (rows : List Row) (dts : List ℚ) :
    ℚ × List ℚ × Option String :=
  match (selectCols headers).1 with
  | some c =>
    let values := valuesOf rows c
    (computeTotalEnergy values, values, some c)
  | none =>
    match (selectCols headers).2 with
    | some c =>
      let pv := valuesOf rows c
      ((List.zipWith (fun a b => a * b) pv dts).sum, pv, some c)
    | none => ((0 : ℚ), ([] : List ℚ), (none : Option String))

/-- EnergyProfiler._parse_csv on the rows read from the CSV (the file
I/O that precedes this, and its error dict, live in `stop`'s file model):
zero rows short-circuit; otherwise pick a column (step 1), derive Δt
(step 2), and reduce to a total (step 3). -/
def parse_csv (rows : List Row) : PyDict :=
  match rows with
  | [] =>
    { dry_run := none, error := none, samples := some 0,
      total_energy_joules := some (some 0), energy_column_used := none,
      duration_seconds := none, mean_power_watts := none,
      raw_power_readings := none }
  | r0 :: _ =>
    let headers := r0.map Prod.fst
    let td := timesOf headers rows
    mkSummary rows.length (step3Of headers rows td.1) td.2

end EnergyProfiler

/-- The platform, as reported by platform.system(). -/
inductive Plat where
  | windows : Plat
  | linux : Plat
  | macos : Plat
deriving DecidableEq, Repr

/-- The state of the sampler's output CSV when stop comes to parse it:
missing, present but unreadable (open/DictReader raises), or readable
with the given rows. -/
inductive FileState where
  | absent : FileState
  | unreadable : String → FileState
  | readable : List Row → FileState
deriving DecidableEq, Repr

/-- Signals / process actions EnergyProfiler.stop dispatches, in order. -/
inductive StopEvent where
  | terminateSig : StopEvent
  | sigintSig : StopEvent
  | killed : StopEvent
deriving DecidableEq, Repr

/-- The mutable fields of an EnergyProfiler instance: the dry-run flag,
the handle of the launched sampler process (if any), and the output path
given to the last start call. -/
structure ProfilerState where
  dry_run : Bool
  proc : Option Unit
  output_file : Option String
deriving DecidableEq, Repr

namespace EnergyProfiler

/-- The dict stop returns in dry-run mode
(`{"dry_run": True, "total_energy_joules": None, "samples": 0}`). -/
def dryStopDict : PyDict :=
  { dry_run := some true, error := none, samples := some 0,
    total_energy_joules := some none, energy_column_used := none,
    duration_seconds := none, mean_power_watts := none,
    raw_power_readings := none }

/-- EnergyProfiler.start: record the output path; in dry-run do nothing
else; otherwise launch the sampler subprocess and probe it after a short
pause — a process that has already exited turns into a RuntimeError whose
message carries the process's captured stderr. `exitedEarly` is whether
the probe finds the process dead, `stderrS` its captured stderr. -/
def start (st : ProfilerState) (outputCsv : String) (exitedEarly : Bool)
    (stderrS : String) : Except String Unit × ProfilerState :=
  let st1 := { st with output_file := some outputCsv }
  if st.dry_run then (Except.ok (), st1)
  else
    let st2 := { st1 with proc := some () }
    if exitedEarly then
      (Except.error ("EnergyBridge failed to start: " ++ stderrS), st2)
    else (Except.ok (), st2)

/-- The graceful termination signal stop sends first: terminate() on
Windows, SIGINT elsewhere. -/
def gracefulSignal : Plat → StopEvent
  | Plat.windows => StopEvent.terminateSig
  | _ => StopEvent.sigintSig

/-- EnergyProfiler.stop: dry-run short-circuits to the dry dict; with no
process launched it returns None at once; otherwise it sends the graceful
platform signal and waits up to 10s (`gracefulOk`), escalating to kill()
on timeout or error (kill's own errors are swallowed), clears the process
handle, and finally parses the output file whenever one was recorded and
exists. Returns (dispatched actions, return value, new state); the
`force` argument is accepted and unused, as in the source. -/
def stop (st : ProfilerState) (_force : Bool) (plat : Plat)
    (gracefulOk : Bool) (file : FileState) :
    List StopEvent × Option PyDict × ProfilerState :=
  if st.dry_run then ([], some dryStopDict, st)
  else
    match st.proc with
    | none => ([], none, st)
    | some _ =>
      let evs := gracefulSignal plat ::
        (if gracefulOk then [] else [StopEvent.killed])
      let st1 := { st with proc := none }
      match st.output_file with
      | none => (evs, none, st1)
      | some _ =>
        match file with
        | FileState.absent => (evs, none, st1)
        | FileState.unreadable msg => (evs, some (errDict msg), st1)
        | FileState.readable rows => (evs, some (parse_csv rows), st1)

end EnergyProfiler

/-- What a browser/trial phase call does: return normally or raise. -/
inductive Outcome where
  | ok : Outcome
  | raises : String → Outcome
deriving DecidableEq, Repr

/-- The calls run_single_trial makes, in dispatch order. -/
inductive TrialEvent where
  | setupCall : TrialEvent
  | samplerStartCall : TrialEvent
  | playbackCall : TrialEvent
  | samplerStopCall : Bool → TrialEvent
  | teardownCall : TrialEvent
  | saveCall : TrialEvent
deriving DecidableEq, Repr

/-- The trial record run_single_trial fills in (config name, run id and
timestamp omitted: they are constants of the trial). -/
structure TrialResult where
  success : Bool
  energy_data : Option PyDict
  error : Option String
deriving DecidableEq, Repr

/-- run_single_trial (src/run_experiment.py): inside `try`, launch the
browser, start the profiler, start playback, sleep, stop the profiler and
mark success; `except Exception` records the error and force-stops the
profiler; `finally` always calls teardown (its own errors swallowed,
`teardownOut` is therefore unused); then the record is saved. The browser
phases' behaviours enter as `setupOut` / `playbackOut`; the sampler
subprocess's as `exitedEarly` / `stderrS` / `plat` / `gracefulOk` /
`file`. Returns the trial record and the calls dispatched, in order. -/
def run_single_trial (dryRun : Bool) (setupOut : Outcome) (exitedEarly : Bool)
    (stderrS : String) (playbackOut : Outcome) (plat : Plat)
    (gracefulOk : Bool) (file : FileState) (_teardownOut : Outcome)
    (energyFile : String) : TrialResult × List TrialEvent :=
  let st0 : ProfilerState := ⟨dryRun, none, none⟩
  let r0 : TrialResult := ⟨false, none, none⟩
  let afterTry : TrialResult × List TrialEvent :=
    match setupOut with
    | Outcome.raises e =>
      ({ r0 with error := some e },
       [TrialEvent.setupCall, TrialEvent.samplerStopCall true])
    | Outcome.ok =>
      let started := EnergyProfiler.start st0 energyFile exitedEarly stderrS
      match started.1 with
      | Except.error e =>
        ({ r0 with error := some e },
         [TrialEvent.setupCall, TrialEvent.samplerStartCall,
          TrialEvent.samplerStopCall true])
      | Except.ok _ =>
        match playbackOut with
        | Outcome.raises e =>
          ({ r0 with error := some e },
           [TrialEvent.setupCall, TrialEvent.samplerStartCall,
            TrialEvent.playbackCall, TrialEvent.samplerStopCall true])
        | Outcome.ok =>
          let stopped := EnergyProfiler.stop started.2 false plat gracefulOk file
          ({ success := true, energy_data := stopped.2.1, error := none },
           [TrialEvent.setupCall, TrialEvent.samplerStartCall,
            TrialEvent.playbackCall, TrialEvent.samplerStopCall false])
  (afterTry.1, afterTry.2 ++ [TrialEvent.teardownCall, TrialEvent.saveCall])

namespace BrowserController

/-- strip() on a character list: drop leading and trailing whitespace. -/
def trimChars (cs : List Char) : List Char :=
  ((cs.dropWhile Char.isWhitespace).reverse.dropWhile Char.isWhitespace).reverse

/-- The speed-label normalization both site variants use:
`(s or "").strip().lower().replace("×", "x").replace(" ", "")`. -/
def norm (s : String) : String :=
  let lowered := (trimChars s.toList).map Char.toLower
  let xed := lowered.map (fun c => if c = '×' then 'x' else c)
  String.mk (xed.filter (fun c => c != ' '))

/-- The label pattern `^\d+(?:\.\d+)?[x×]$` with re.I: one or more digits,
an optional dot-and-digits part, then x / X / ×. -/
def isSpeedLabel (s : String) : Bool :=
  let cs := s.toList
  let ds := cs.takeWhile Char.isDigit
  let rest := cs.dropWhile Char.isDigit
  if ds.isEmpty then false
  else
    match rest with
    | ['x'] => true
    | ['X'] => true
    | ['×'] => true
    | '.' :: r2 =>
      let ds2 := r2.takeWhile Char.isDigit
      let r3 := r2.dropWhile Char.isDigit
      (!ds2.isEmpty) && (r3 == ['x'] || r3 == ['X'] || r3 == ['×'])
    | _ => false

/-- Outcome of a speed-setting attempt: whether it reported success and
how many page clicks it dispatched. -/
structure SetSpeedResult where
  success : Bool
  clicks : Nat
deriving DecidableEq, Repr

/-- BrowserController._set_apple_speed_via_ui, with the page abstracted:
`current` is the speed label the in-page search finds near the playback
controls (none = search kept failing until the deadline — note the page
script only ever yields text matching the speed pattern); matching-
normalized labels succeed with no interaction; otherwise the current
label is clicked to open the menu (`clickCurrentOk` = a clickable host
was found) and the target option is clicked (`optionClickOk` = the menu
search, including its bounded scroll sweeps, found it). -/
def set_apple_speed_via_ui (current : Option String) (targetLabel : String)
    (clickCurrentOk : Bool) (optionClickOk : Bool) : SetSpeedResult :=
  match current with
  | none => { success := false, clicks := 0 }
  | some cur =>
    if norm cur = norm targetLabel then { success := true, clicks := 0 }
    else if clickCurrentOk then
      if optionClickOk then { success := true, clicks := 2 }
      else { success := false, clicks := 1 }
    else { success := false, clicks := 0 }

/-- BrowserController._set_spotify_speed_via_ui_in_player_bar, abstracted
the same way; this variant re-checks the found label against the speed
pattern before comparing (a non-matching label keeps the poll loop
spinning until the deadline, reporting failure). -/
def set_spotify_speed_via_ui_in_player_bar (current : Option String)
    (targetLabel : String) (clickCurrentOk : Bool) (optionClickOk : Bool) :
    SetSpeedResult :=
  match current with
  | none => { success := false, clicks := 0 }
  | some cur =>
    if isSpeedLabel cur then
      if norm cur = norm targetLabel then { success := true, clicks := 0 }
      else if clickCurrentOk then
        if optionClickOk then { success := true, clicks := 2 }
        else { success := false, clicks := 1 }
      else { success := false, clicks := 0 }
    else { success := false, clicks := 0 }

end BrowserController

/-- One sample row per value, all under a single column `col` — the shape
a one-column sampler CSV takes. -/
def mkRows (col : String) (vs : List ℚ) : List Row :=
  vs.map (fun v => [(col, Cell.num v)])

section ClaimProofs

attribute [local semireducible] Rat.mul Rat.add Rat.sub Rat.inv

open EnergyProfiler

theorem round4_zero : round4 0 = 0 := by decide

theorem selectCols_energy :
    selectCols ["PACKAGE_ENERGY (J)"] = (some "PACKAGE_ENERGY (J)", none) := by
  decide

theorem selectCols_power :
    selectCols ["SYSTEM_POWER (Watts)"] = (none, some "SYSTEM_POWER (Watts)") := by
  decide

theorem mkRows_cons (col : String) (v : ℚ) (vs : List ℚ) :
    mkRows col (v :: vs) = [(col, Cell.num v)] :: mkRows col vs := rfl

theorem valuesOf_mkRows (col : String) (vs : List ℚ) :
    valuesOf (mkRows col vs) col = vs := by
  induction vs with
  | nil => rfl
  | cons a t ih =>
    simp only [mkRows_cons, valuesOf, List.filterMap_cons] at ih ⊢
    simp only [rowGet, List.lookup, beq_self_eq_true, cond_true, Option.getD_some,
      cellFloat] at ih ⊢
    exact congrArg (a :: ·) ih

theorem timesOf_power_fallback (rows : List Row) :
    timesOf ["SYSTEM_POWER (Watts)"] rows =
      (List.replicate (rows.length - 1) (1 / 2),
       some ((1 / 2 : ℚ) * (rows.length : ℚ))) := by
  have hD : (["SYSTEM_POWER (Watts)"].contains "Delta") = false := by decide
  have hT : (["SYSTEM_POWER (Watts)"].contains "Time") = false := by decide
  have hI : sampleIntervalMs / 1000 = (1 / 2 : ℚ) := by decide
  simp [timesOf, hD, hT, hI]

/-- The total-energy field of a parsed non-empty series, written out as
the step-2/step-3 computation it abbreviates. -/
theorem parse_csv_total_eq (r0 : Row) (rest : List Row) :
    (parse_csv (r0 :: rest)).total_energy_joules = some (some (round4
      (step3Of (r0.map Prod.fst) (r0 :: rest)
        (timesOf (r0.map Prod.fst) (r0 :: rest)).1).1)) := rfl

theorem step3Of_energy (rows : List Row) (dts : List ℚ) :
    step3Of ["PACKAGE_ENERGY (J)"] rows dts =
      (computeTotalEnergy (valuesOf rows "PACKAGE_ENERGY (J)"),
       valuesOf rows "PACKAGE_ENERGY (J)", some "PACKAGE_ENERGY (J)") := by
  simp [step3Of, selectCols_energy]

theorem step3Of_power (rows : List Row) (dts : List ℚ) :
    step3Of ["SYSTEM_POWER (Watts)"] rows dts =
      ((List.zipWith (fun a b => a * b) (valuesOf rows "SYSTEM_POWER (Watts)") dts).sum,
       valuesOf rows "SYSTEM_POWER (Watts)", some "SYSTEM_POWER (Watts)") := by
  simp [step3Of, selectCols_power]

theorem parse_csv_energy_total (a : ℚ) (t : List ℚ) :
    (parse_csv (mkRows "PACKAGE_ENERGY (J)" (a :: t))).total_energy_joules
      = some (some (round4 (computeTotalEnergy (a :: t)))) := by
  rw [mkRows_cons, parse_csv_total_eq]
  simp only [List.map_cons, List.map_nil, step3Of_energy]
  rw [← mkRows_cons, valuesOf_mkRows]

theorem parse_csv_power_total (a : ℚ) (t : List ℚ) :
    (parse_csv (mkRows "SYSTEM_POWER (Watts)" (a :: t))).total_energy_joules
      = some (some (round4 ((List.zipWith (fun x y => x * y) (a :: t)
          (List.replicate ((a :: t).length - 1) (1 / 2))).sum))) := by
  rw [mkRows_cons, parse_csv_total_eq]
  simp only [List.map_cons, List.map_nil, step3Of_power, timesOf_power_fallback]
  rw [← mkRows_cons, valuesOf_mkRows]
  have hlen : (mkRows "SYSTEM_POWER (Watts)" (a :: t)).length = (a :: t).length := by
    simp [mkRows]
  rw [hlen]

theorem zipWith_replicate_pred (c : ℚ) (vs : List ℚ) :
    List.zipWith (fun x y => x * y) vs (List.replicate (vs.length - 1) c)
      = vs.dropLast.map (fun p => p * c) := by
  induction vs with
  | nil => rfl
  | cons a t ih =>
    cases t with
    | nil => rfl
    | cons b t2 =>
      simp only [List.length_cons, Nat.add_sub_cancel, List.replicate_succ,
        List.zipWith_cons_cons, List.dropLast_cons₂, List.map_cons] at ih ⊢
      exact congrArg (a * c :: ·) ih

theorem nonDecr_false_ne_nil (vs : List ℚ) (h : nonDecr vs = false) : vs ≠ [] := by
  intro he
  subst he
  simp [nonDecr] at h

/-- Claim C1, refuted: a one-row series whose only column ("FOO") matches
no energy or power candidate and no substring heuristic is interpreted
without any error — the summary carries total_energy_joules = 0.0 and
energy_column_used = None, exactly the fabricated zero the claim rules
out. -/
theorem C1_counterexample :
    (parse_csv [[("FOO", Cell.num 1)]]).error = none ∧
    (parse_csv [[("FOO", Cell.num 1)]]).total_energy_joules = some (some 0) ∧
    (parse_csv [[("FOO", Cell.num 1)]]).energy_column_used = some none := by
  refine ⟨rfl, ?_, rfl⟩
  decide

/-- Claim C1 as amended: for every parsed non-empty series whose column
set selects neither an energy nor a power column (explicit candidates and
the substring fallback all miss), _parse_csv returns a summary — no error
key, no exception — with total_energy_joules = 0.0 and
energy_column_used = None. -/
theorem C1_unrecognized_columns_zero_total (r0 : Row) (rest : List Row)
    (hsel : selectCols (r0.map Prod.fst) = (none, none)) :
    (parse_csv (r0 :: rest)).error = none ∧
    (parse_csv (r0 :: rest)).total_energy_joules = some (some 0) ∧
    (parse_csv (r0 :: rest)).energy_column_used = some none := by
  refine ⟨rfl, ?_, ?_⟩
  · rw [parse_csv_total_eq]
    simp [step3Of, hsel, round4_zero]
  · show (mkSummary _ (step3Of (r0.map Prod.fst) (r0 :: rest) _) _).energy_column_used
      = some none
    simp [step3Of, hsel, mkSummary]

theorem C1_witness :
    (parse_csv [[("BAR", Cell.num 7)]]).error = none ∧
    (parse_csv [[("BAR", Cell.num 7)]]).total_energy_joules = some (some 0) ∧
    (parse_csv [[("BAR", Cell.num 7)]]).energy_column_used = some none :=
  C1_unrecognized_columns_zero_total [("BAR", Cell.num 7)] [] (by decide)

/-- Claim C2, refuted: a power-only series [2, 3, 4] W with no timestamp
columns (uniform fallback Δt = 0.5 s) integrates to 2.5 J, not the 4.5 J
the claim states — the code pairs each power reading with the interval
that follows it and there are only n − 1 intervals, so the last reading
is dropped. -/
theorem C2_counterexample :
    (parse_csv (mkRows "SYSTEM_POWER (Watts)" [2, 3, 4])).total_energy_joules
      = some (some (5 / 2)) ∧ ¬ ((5 / 2 : ℚ) = 9 / 2) := by
  constructor
  · rw [parse_csv_power_total]
    decide
  · decide

/-- Claim C2 as amended: for a power-only series with no timestamps and
uniform fallback Δt = 0.5 s, the total is the sum of all readings but the
last, each multiplied by 0.5 — on [2, 3, 4] W this is 2.5 J, the last
sample being dropped because only n − 1 inter-sample intervals exist. -/
theorem C2_power_integration_drops_last (vs : List ℚ) (h : vs ≠ []) :
    (parse_csv (mkRows "SYSTEM_POWER (Watts)" vs)).total_energy_joules
      = some (some (round4 ((vs.dropLast.map (fun p => p * (1 / 2))).sum))) := by
  obtain ⟨a, t, rfl⟩ := List.exists_cons_of_ne_nil h
  rw [parse_csv_power_total, zipWith_replicate_pred]

theorem C2_witness :
    (parse_csv (mkRows "SYSTEM_POWER (Watts)" [2, 3, 4])).total_energy_joules
      = some (some (5 / 2)) :=
  (C2_power_integration_drops_last [2, 3, 4] (by decide)).trans (by decide)

/-- Claim C3, refuted on its first half: the singleton series [5] has a
(vacuously) non-decreasing energy column, yet _parse_csv totals it at 5,
not last − first = 0 — fewer than two parsed values always take the sum
branch. -/
theorem C3_counterexample :
    nonDecr [(5 : ℚ)] = true ∧
    (parse_csv (mkRows "PACKAGE_ENERGY (J)" [(5 : ℚ)])).total_energy_joules
      = some (some 5) ∧
    ¬ ((5 : ℚ) = [(5 : ℚ)].getLast?.getD 0 - [(5 : ℚ)].head?.getD 0) := by
  refine ⟨rfl, ?_, by decide⟩
  rw [parse_csv_energy_total]
  decide

/-- Claim C3 as amended: a series whose selected energy column holds at
least two parsed values, all pairwise non-decreasing, totals to
last − first (so [10, 12, 15, 20] yields 10); a series whose values are
not non-decreasing totals to their sum (so [20, 15, 12, 10] yields 57);
with fewer than two values the sum branch is taken as well. -/
theorem C3_cumulative_vs_per_sample (vs : List ℚ) :
    (2 ≤ vs.length → nonDecr vs = true →
      (parse_csv (mkRows "PACKAGE_ENERGY (J)" vs)).total_energy_joules
        = some (some (round4 (vs.getLast?.getD 0 - vs.head?.getD 0)))) ∧
    (nonDecr vs = false →
      (parse_csv (mkRows "PACKAGE_ENERGY (J)" vs)).total_energy_joules
        = some (some (round4 vs.sum))) := by
  constructor
  · intro hlen hnd
    have hne : vs ≠ [] := by
      intro he
      subst he
      simp at hlen
    obtain ⟨a, t, rfl⟩ := List.exists_cons_of_ne_nil hne
    rw [parse_csv_energy_total]
    rw [computeTotalEnergy, if_pos ⟨hlen, hnd⟩]
  · intro hnd
    obtain ⟨a, t, rfl⟩ := List.exists_cons_of_ne_nil (nonDecr_false_ne_nil vs hnd)
    rw [parse_csv_energy_total]
    rw [computeTotalEnergy, if_neg (fun hc => by rw [hnd] at hc; exact absurd hc.2 (by decide))]

theorem C3_witness :
    (parse_csv (mkRows "PACKAGE_ENERGY (J)" [10, 12, 15, 20])).total_energy_joules
      = some (some 10) ∧
    (parse_csv (mkRows "PACKAGE_ENERGY (J)" [20, 15, 12, 10])).total_energy_joules
      = some (some 57) :=
  ⟨((C3_cumulative_vs_per_sample [10, 12, 15, 20]).1 (by decide) (by decide)).trans
    (by decide),
   ((C3_cumulative_vs_per_sample [20, 15, 12, 10]).2 (by decide)).trans (by decide)⟩

/-- Claim C4, confirmed: whatever browser setup, sampler start and
playback do — every combination of returning or raising — the trial
dispatches teardown exactly once; and whenever the trial record ends
unsuccessful (some phase raised), a force-stop of the sampler was
dispatched before teardown, hence before the trial completes. -/
theorem C4_teardown_exactly_once (dryRun : Bool) (setupOut : Outcome)
    (exitedEarly : Bool) (stderrS : String) (playbackOut : Outcome)
    (plat : Plat) (gracefulOk : Bool) (file : FileState)
    (teardownOut : Outcome) (energyFile : String) :
    ((run_single_trial dryRun setupOut exitedEarly stderrS playbackOut plat
        gracefulOk file teardownOut energyFile).2.count TrialEvent.teardownCall = 1) ∧
    ((run_single_trial dryRun setupOut exitedEarly stderrS playbackOut plat
        gracefulOk file teardownOut energyFile).1.success = false →
      ∃ pre post,
        (run_single_trial dryRun setupOut exitedEarly stderrS playbackOut plat
          gracefulOk file teardownOut energyFile).2
            = pre ++ TrialEvent.samplerStopCall true :: post ∧
        TrialEvent.teardownCall ∈ post ∧ TrialEvent.teardownCall ∉ pre) := by
  cases setupOut with
  | raises e =>
    exact ⟨rfl, fun _ => ⟨[TrialEvent.setupCall],
      [TrialEvent.teardownCall, TrialEvent.saveCall], rfl, by decide, by decide⟩⟩
  | ok =>
    cases dryRun with
    | true =>
      cases playbackOut with
      | raises e =>
        exact ⟨rfl, fun _ =>
          ⟨[TrialEvent.setupCall, TrialEvent.samplerStartCall, TrialEvent.playbackCall],
           [TrialEvent.teardownCall, TrialEvent.saveCall], rfl, by decide, by decide⟩⟩
      | ok => exact ⟨rfl, fun h => absurd h (by simp [run_single_trial,
          EnergyProfiler.start, EnergyProfiler.stop])⟩
    | false =>
      cases exitedEarly with
      | true =>
        exact ⟨rfl, fun _ =>
          ⟨[TrialEvent.setupCall, TrialEvent.samplerStartCall],
           [TrialEvent.teardownCall, TrialEvent.saveCall], rfl, by decide, by decide⟩⟩
      | false =>
        cases playbackOut with
        | raises e =>
          exact ⟨rfl, fun _ =>
            ⟨[TrialEvent.setupCall, TrialEvent.samplerStartCall, TrialEvent.playbackCall],
             [TrialEvent.teardownCall, TrialEvent.saveCall], rfl, by decide, by decide⟩⟩
        | ok => exact ⟨rfl, fun h => absurd h (by simp [run_single_trial,
            EnergyProfiler.start, EnergyProfiler.stop])⟩

theorem C4_witness :
    ((run_single_trial false (Outcome.raises "boom") false "" Outcome.ok Plat.linux
        true FileState.absent Outcome.ok "f").2.count TrialEvent.teardownCall = 1) ∧
    (∃ pre post,
      (run_single_trial false (Outcome.raises "boom") false "" Outcome.ok Plat.linux
        true FileState.absent Outcome.ok "f").2
          = pre ++ TrialEvent.samplerStopCall true :: post ∧
      TrialEvent.teardownCall ∈ post ∧ TrialEvent.teardownCall ∉ pre) :=
  ⟨(C4_teardown_exactly_once false (Outcome.raises "boom") false "" Outcome.ok
      Plat.linux true FileState.absent Outcome.ok "f").1,
   (C4_teardown_exactly_once false (Outcome.raises "boom") false "" Outcome.ok
      Plat.linux true FileState.absent Outcome.ok "f").2 rfl⟩

/-- Claim C5, confirmed: a dry-run trial (profiler skipped) whose browser
setup and playback both return normally records success = true with the
dry-run energy dict — total_energy_joules present but null, samples 0 —
whatever the sampler environment or teardown would have done. -/
theorem C5_dry_run_trial (exitedEarly : Bool) (stderrS : String) (plat : Plat)
    (gracefulOk : Bool) (file : FileState) (teardownOut : Outcome)
    (energyFile : String) :
    (run_single_trial true Outcome.ok exitedEarly stderrS Outcome.ok plat
        gracefulOk file teardownOut energyFile).1.success = true ∧
    (run_single_trial true Outcome.ok exitedEarly stderrS Outcome.ok plat
        gracefulOk file teardownOut energyFile).1.energy_data
      = some EnergyProfiler.dryStopDict ∧
    EnergyProfiler.dryStopDict.total_energy_joules = some none ∧
    EnergyProfiler.dryStopDict.samples = some 0 :=
  ⟨rfl, rfl, rfl, rfl⟩

/-- Claim C6, confirmed: a non-dry-run start whose post-launch probe finds
the sampler process already dead raises a RuntimeError carrying the
process's captured stderr in its message; when the probe finds it alive,
start returns normally. -/
theorem C6_start_probe (st : ProfilerState) (outputCsv stderrS : String)
    (h : st.dry_run = false) :
    (EnergyProfiler.start st outputCsv true stderrS).1
      = Except.error ("EnergyBridge failed to start: " ++ stderrS) ∧
    (EnergyProfiler.start st outputCsv false stderrS).1 = Except.ok () := by
  constructor <;> simp [EnergyProfiler.start, h]

theorem C6_witness :
    (EnergyProfiler.start ⟨false, none, none⟩ "out.csv" true "boom").1
      = Except.error ("EnergyBridge failed to start: boom") ∧
    (EnergyProfiler.start ⟨false, none, none⟩ "out.csv" false "boom").1
      = Except.ok () :=
  C6_start_probe ⟨false, none, none⟩ "out.csv" "boom" rfl

theorem gracefulSignal_ne_killed (plat : Plat) :
    EnergyProfiler.gracefulSignal plat ≠ StopEvent.killed := by
  cases plat <;> decide

theorem killed_ne_gracefulSignal (plat : Plat) :
    StopEvent.killed ≠ EnergyProfiler.gracefulSignal plat := by
  cases plat <;> decide

/-- Claim C7, confirmed: stopping a started non-dry-run sampler first
dispatches the platform-appropriate graceful signal (terminate on
Windows, SIGINT elsewhere); kill is dispatched exactly when the graceful
wait failed; afterwards the output file is parsed whenever it exists
(readable or not), the parsed summary (or the parse-error dict) is
returned, None is returned only when the file does not exist, and the
process handle is cleared. -/
theorem C7_stop_graceful_then_parse (force : Bool) (plat : Plat)
    (gracefulOk : Bool) (file : FileState) (outputCsv : String) :
    ((EnergyProfiler.stop ⟨false, some (), some outputCsv⟩ force plat gracefulOk
        file).1.head? = some (EnergyProfiler.gracefulSignal plat)) ∧
    (StopEvent.killed ∈ (EnergyProfiler.stop ⟨false, some (), some outputCsv⟩
        force plat gracefulOk file).1 ↔ gracefulOk = false) ∧
    ((EnergyProfiler.stop ⟨false, some (), some outputCsv⟩ force plat gracefulOk
        file).2.1 = none ↔ file = FileState.absent) ∧
    (∀ rows, file = FileState.readable rows →
      (EnergyProfiler.stop ⟨false, some (), some outputCsv⟩ force plat gracefulOk
        file).2.1 = some (EnergyProfiler.parse_csv rows)) ∧
    (∀ msg, file = FileState.unreadable msg →
      (EnergyProfiler.stop ⟨false, some (), some outputCsv⟩ force plat gracefulOk
        file).2.1 = some (EnergyProfiler.errDict msg)) ∧
    (EnergyProfiler.stop ⟨false, some (), some outputCsv⟩ force plat gracefulOk
        file).2.2.proc = none := by
  refine ⟨?_, ?_, ?_, ?_, ?_, ?_⟩ <;>
    cases file <;>
      simp [EnergyProfiler.stop, gracefulSignal_ne_killed,
        killed_ne_gracefulSignal]

theorem C7_witness :
    ((EnergyProfiler.stop ⟨false, some (), some "out.csv"⟩ false Plat.linux false
        (FileState.readable [])).1.head?
      = some (EnergyProfiler.gracefulSignal Plat.linux)) ∧
    (StopEvent.killed ∈ (EnergyProfiler.stop ⟨false, some (), some "out.csv"⟩
        false Plat.linux false (FileState.readable [])).1) ∧
    ((EnergyProfiler.stop ⟨false, some (), some "out.csv"⟩ false Plat.linux false
        (FileState.readable [])).2.1 = some (EnergyProfiler.parse_csv [])) :=
  ⟨(C7_stop_graceful_then_parse false Plat.linux false (FileState.readable [])
      "out.csv").1,
   ((C7_stop_graceful_then_parse false Plat.linux false (FileState.readable [])
      "out.csv").2.1).mpr rfl,
   (C7_stop_graceful_then_parse false Plat.linux false (FileState.readable [])
      "out.csv").2.2.2.1 [] rfl⟩

/-- Claim C8, confirmed: on both site variants, when the located current
speed label and the target label normalize to the same string (case
folded, spaces stripped/removed, the multiplication sign mapped to "x"),
the speed setter reports success immediately with zero clicks dispatched,
whatever the page would have done with its menus. -/
theorem C8_speed_noop (cur targetLabel : String) (c1 c2 c3 c4 : Bool)
    (hre : BrowserController.isSpeedLabel cur = true)
    (hnorm : BrowserController.norm cur = BrowserController.norm targetLabel) :
    BrowserController.set_apple_speed_via_ui (some cur) targetLabel c1 c2
      = { success := true, clicks := 0 } ∧
    BrowserController.set_spotify_speed_via_ui_in_player_bar (some cur)
      targetLabel c3 c4 = { success := true, clicks := 0 } := by
  constructor <;>
    simp [BrowserController.set_apple_speed_via_ui,
      BrowserController.set_spotify_speed_via_ui_in_player_bar, hre, hnorm]

theorem C8_witness :
    BrowserController.set_apple_speed_via_ui (some "1.5×") " 1.5X " true false
      = { success := true, clicks := 0 } ∧
    BrowserController.set_spotify_speed_via_ui_in_player_bar (some "1.5×")
      " 1.5X " false true = { success := true, clicks := 0 } :=
  C8_speed_noop "1.5×" " 1.5X " true false false true (by decide) (by decide)

/-- Claim C9, confirmed: stop on a non-dry-run profiler that was never
started (no process handle, no output path) returns None at once: no
signal or kill is dispatched, no parse is attempted, and the state is
untouched. -/
theorem C9_stop_without_start (force : Bool) (plat : Plat) (gracefulOk : Bool)
    (file : FileState) :
    EnergyProfiler.stop ⟨false, none, none⟩ force plat gracefulOk file
      = ([], none, ⟨false, none, none⟩) := rfl

/-- Claim C10, confirmed: a series file that parses to zero data rows
yields a summary with samples = 0 and total_energy_joules = 0.0, with no
error key (and _parse_csv raises nothing: it is a total function). -/
theorem C10_empty_series :
    (EnergyProfiler.parse_csv []).samples = some 0 ∧
    (EnergyProfiler.parse_csv []).total_energy_joules = some (some 0) ∧
    (EnergyProfiler.parse_csv []).error = none :=
  ⟨rfl, rfl, rfl⟩

end ClaimProofs
